import Mathlib

/-!
Shallow embedding of the pit-ninja BBQ pit controller (Node.js) in Lean 4.

Sources embedded here:
  * `src/utils.js`            — constrain, mapRange, mapPct, removeItem,
                                calcExpMovingAverage, calcLowerTrimmedMean
  * the pit PID controller (`PitPID`, an implementation of HeaterMeter's
    grillpid.cpp) — its state, setters, PID computation, output commits,
    status report and the `doWork` tick
  * `src/meater-daemon.js`    — bytesToInt, temperature/battery decoding,
                                blacklist / whitelist / isBlacklisted

Modelling conventions:
  * JS numbers are modelled as ℚ (the claims exercise no float rounding).
  * JS `null` is modelled as `Option.none` where the source stores null in a
    field; where JS arithmetic coerces `null` to `0` we apply `coerceNull`.
  * A JS expression that throws (TypeError / ReferenceError) is modelled by
    an `Option` result, `none` meaning the exception.
  * `Math.sqrt` appears only inside the comparison
    `value >= mean - k * sqrt(variance)`; it is embedded as the decidable
    rational test `retainedB` (squared comparison), which is proved
    equivalent to the real-sqrt comparison for `0 ≤ k` (the only threshold
    the repository uses is k = 0.5).
-/

/-- Value space of the JS temperature-fusion result: a finite number, the JS
`NaN`, or the JS `null` (the last never produced by the source function but
needed to state what the spec asserts). -/
inductive JSVal where
  | num (q : ℚ)
  | nan
  | jsNull
deriving DecidableEq

/-- JS arithmetic coerces `null` to `0`; applied where the source does
arithmetic on a possibly-null field. -/
def coerceNull (o : Option ℚ) : ℚ := o.getD 0

/-- utils.js: `constrain(value, minValue, maxValue)` =
`Math.min(Math.max(value, minValue), maxValue)`. -/
def constrain (value minValue maxValue : ℚ) : ℚ :=
  min (max value minValue) maxValue

/-- utils.js: `mapRange(value, min, max, newMin, newMax)`. When `max = min`
the JS code computes `0 / 0 = NaN` (the clamped value always equals `min`),
modelled as `none`; otherwise the linear map of the clamped value. -/
def mapRange (value mn mx newMin newMax : ℚ) : Option ℚ :=
  if mx = mn then none
  else some ((constrain value mn mx - mn) / (mx - mn) * (newMax - newMin) + newMin)

/-- utils.js: `mapPct(o, a, b)` = `((b - a) * constrain(o,0,100)) / 100 + a`. -/
def mapPct (o a b : ℚ) : ℚ :=
  (b - a) * constrain o 0 100 / 100 + a

/-- utils.js: `calcExpMovingAverage(smooth, currAverage, newValue)`; returns
`newValue` when the current average is null (or NaN, subsumed in `none`). -/
def calcExpMovingAverage (smooth : ℚ) (currAverage : Option ℚ) (newValue : ℚ) : ℚ :=
  match currAverage with
  | none => newValue
  | some c => c + smooth * (newValue - c)

/-- utils.js: `removeItem(arr, item)` = `arr.filter((value) => value !== item)`. -/
def removeItem (arr : List String) (item : String) : List String :=
  arr.filter (fun value => value ≠ item)

/-- Mean of a list as the source computes it: `reduce(+,0) / length`. -/
def listMean (arr : List ℚ) : ℚ := arr.sum / arr.length

/-- Population variance of a list as the source computes it (the source then
takes `Math.sqrt` of this). -/
def listPopVar (arr : List ℚ) : ℚ :=
  (arr.map (fun value => (value - listMean arr) ^ 2)).sum / arr.length

/-- Decidable embedding of the source's filter condition
`value >= mean - deviationThreshold * Math.sqrt(variance)`:
for `0 ≤ k` (the repository only uses k = 0.5) the condition holds iff
`mean - value ≤ 0` or `(mean - value)² ≤ k² · variance`; proved equivalent to
the real-sqrt comparison in `retainedB_iff_sqrt` below. -/
def retainedB (k mean variance value : ℚ) : Bool :=
  if mean - value ≤ 0 then true
  else decide ((mean - value) ^ 2 ≤ k ^ 2 * variance)

/-- utils.js: `calcLowerTrimmedMean(arr, deviationThreshold)`.
The source first does `arr.sort()` (an in-place lexicographic permutation);
every subsequent fold and the filter are permutation-invariant, so sorting is
omitted. On the empty list every JS division is `0 / 0 = NaN` and the function
returns NaN (never `null`). The trimmed set can only be empty for a negative
threshold (never used); that branch also yields NaN in JS. -/
def calcLowerTrimmedMean (arr : List ℚ) (deviationThreshold : ℚ) : JSVal :=
  if arr.isEmpty then JSVal.nan
  else
    let mean := listMean arr
    let variance := listPopVar arr
    let trimmedValues := arr.filter (fun value => retainedB deviationThreshold mean variance value)
    if trimmedValues.isEmpty then JSVal.nan
    else JSVal.num (listMean trimmedValues)

/-- View of a fusion result as the controller stores it in `_currentTemp`:
a number becomes `some`, NaN (and the never-produced null) become `none`
(both fail the `!== null && !isNaN` guard of `hasTemperature`). -/
def jsvalToOption : JSVal → Option ℚ
  | JSVal.num q => some q
  | JSVal.nan => none
  | JSVal.jsNull => none

/-! ## Meater daemon (src/meater-daemon.js) -/

/-- meater-daemon.js: `MeaterProbe.bytesToInt(byte0, byte1)` =
`(byte1 << 8) + byte0` (buffer bytes are < 256, so the 32-bit shift cannot
overflow). -/
def bytesToInt (byte0 byte1 : ℕ) : ℕ := byte1 * 2 ^ 8 + byte0

/-- meater-daemon.js: `MeaterProbe.toCelsius(value)` first component:
`(value + 8) / 16`. -/
def toCelsius (value : ℚ) : ℚ := (value + 8) / 16

/-- meater-daemon.js: `MeaterProbe.toFahrenheit(value)` first component:
`toCelsius(value) * 9 / 5 + 32`. -/
def toFahrenheit (value : ℚ) : ℚ := toCelsius value * 9 / 5 + 32

/-- meater-daemon.js `MeaterProbe.update()`: the battery value carried in the
emitted Update reading, `bytesToInt(battBuffer[0], battBuffer[1]) * 10` —
note the source applies no clamp. -/
def meaterBattery (b0 b1 : ℕ) : ℕ := bytesToInt b0 b1 * 10

/-- meater-daemon.js `MeaterProbe.update()`: the raw ambient value decoded
from the six temperature bytes,
`tip + Math.max(0, ((ra - Math.min(48, oa)) * 16 * 589) / 1487)`. -/
def meaterAmbientRaw (t0 t1 t2 t3 t4 t5 : ℕ) : ℚ :=
  let tip : ℚ := bytesToInt t0 t1
  let ra : ℚ := bytesToInt t2 t3
  let oa : ℚ := bytesToInt t4 t5
  tip + max 0 ((ra - min 48 oa) * 16 * 589 / 1487)

/-- meater-daemon.js: `MeaterDaemon.blacklist(id)` = `this._blacklist.push(id)`. -/
def blacklist (bl : List String) (id : String) : List String := bl ++ [id]

/-- meater-daemon.js: `MeaterDaemon.whitelist(id)` =
`this._blacklist = removeItem(this._blacklist, id)`. -/
def whitelist (bl : List String) (id : String) : List String := removeItem bl id

/-- meater-daemon.js: `MeaterDaemon.isBlacklisted(id)` =
`this._blacklist.includes(id)`. -/
def isBlacklisted (bl : List String) (id : String) : Bool := bl.contains id

/-! ## Pit PID controller constants -/

/-- PIDMODE.STARTUP -/
def PIDMODE_STARTUP : ℕ := 0
/-- PIDMODE.RECOVERY -/
def PIDMODE_RECOVERY : ℕ := 1
/-- PIDMODE.NORMAL -/
def PIDMODE_NORMAL : ℕ := 2
/-- PIDMODE.AUTO_LAST — anything ≤ this is an automatic mode. -/
def PIDMODE_AUTO_LAST : ℕ := 2
/-- PIDMODE.MANUAL -/
def PIDMODE_MANUAL : ℕ := 3
/-- PIDMODE.OFF -/
def PIDMODE_OFF : ℕ := 4

/-- PIDMODE_STR lookup table. -/
def PIDMODE_STR : List String := ["STARTUP", "RECOVERY", "NORMAL", "MANUAL", "OFF"]

/-- PID_PONMEER_LAMBDA = 0.4 -/
def PID_PONMEER_LAMBDA : ℚ := 2 / 5
/-- LIDOPEN_MIN_AUTORESUME = 30 -/
def LIDOPEN_MIN_AUTORESUME : ℚ := 30
/-- TEMP_MEASURE_PERIOD = 1000 ms -/
def TEMP_MEASURE_PERIOD : ℚ := 1000
/-- TEMP_LONG_PWM_CNT = 10 -/
def TEMP_LONG_PWM_CNT : ℕ := 10
/-- TEMP_OUTADJUST_CNT = 3 -/
def TEMP_OUTADJUST_CNT : ℕ := 3
/-- SERVO_MIN_THRESH = 5 -/
def SERVO_MIN_THRESH : ℚ := 5
/-- SERVO_MAX_HOLDOFF = 10 -/
def SERVO_MAX_HOLDOFF : ℕ := 10
/-- TEMPPROBE_AVG_SMOOTH = 2/(1+60) -/
def TEMPPROBE_AVG_SMOOTH : ℚ := 2 / 61
/-- PID_OUTPUT_AVG_SMOOTH = 2/(1+240) -/
def PID_OUTPUT_AVG_SMOOTH : ℚ := 2 / 241
/-- TEMP_DEV_THRESHOLD = 0.5 -/
def TEMP_DEV_THRESHOLD : ℚ := 1 / 2

/-- Entry of `_connectedProbes`: `{timestamp, ambient}`. -/
structure ConnectedProbe where
  timestamp : ℚ
  ambient : ℚ
deriving DecidableEq

/-- Payload of a probe `update` event as consumed by `PitPID.updateProbe`. -/
structure ProbeUpdateData where
  address : String
  timestamp : ℚ
  ambient : ℚ
  units : String
deriving DecidableEq

/-- Mutable state of `PitPID`. `_connectedProbes` is an insertion-ordered
map, modelled as an association list. -/
structure PitState where
  pidP : ℚ
  pidI : ℚ
  pidD : ℚ
  pidCurrentP : ℚ
  pidCurrentI : ℚ
  pidCurrentD : ℚ
  pidMode : ℕ
  pidOutput : ℚ
  pidOutputAvg : ℚ
  lastWorkMillis : ℚ
  periodCounter : ℚ
  longPwmTmr : ℕ
  longPwmRemaining : ℚ
  units : Option String
  setPoint : Option ℚ
  currentTemp : Option ℚ
  temperatureAvg : Option ℚ
  fanMaxSpeed : ℚ
  fanMaxStartupSpeed : ℚ
  fanActiveFloor : ℚ
  fanMinSpeed : ℚ
  servoMinPos : ℚ
  servoMaxPos : ℚ
  fanPct : ℚ
  lastBlowerOutput : ℚ
  servoActiveCeil : ℚ
  servoPct : ℚ
  servoHoldoff : ℕ
  lidOpenOffset : ℚ
  lidOpenDuration : ℚ
  lidOpenTimeout : ℚ
  connectedProbes : List (String × ConnectedProbe)
deriving DecidableEq

/-- The `PitPID` constructor's field initialization (the constructor also
invokes `doWork()`, covered separately by reachability). -/
def initState : PitState where
  pidP := 5 / 2
  pidI := 7 / 2000
  pidD := 6
  pidCurrentP := 0
  pidCurrentI := 0
  pidCurrentD := 0
  pidMode := PIDMODE_STARTUP
  pidOutput := 0
  pidOutputAvg := 0
  lastWorkMillis := 0
  periodCounter := 0
  longPwmTmr := 0
  longPwmRemaining := 0
  units := none
  setPoint := none
  currentTemp := none
  temperatureAvg := none
  fanMaxSpeed := 80
  fanMaxStartupSpeed := 100
  fanActiveFloor := 50
  fanMinSpeed := 50
  servoMinPos := 0
  servoMaxPos := 100
  fanPct := 0
  lastBlowerOutput := 0
  servoActiveCeil := 100
  servoPct := 0
  servoHoldoff := 0
  lidOpenOffset := 5
  lidOpenDuration := 240
  lidOpenTimeout := 0
  connectedProbes := []

/-- Events emitted by the controller: `output {type fan|servo, value}` and
`status`. -/
structure StatusReport where
  mode : String
  numProbes : ℕ
  pitTemp : Option ℚ
  setPoint : Option ℚ
  units : Option String
  pidOutput : ℚ
  fanPct : ℚ
  servoPct : Option ℚ
deriving DecidableEq

/-- Output/status event stream element. -/
inductive PitEvent where
  | fan (value : ℚ)
  | servo (value : ℚ)
  | status (report : StatusReport)
deriving DecidableEq

/-- Predicate: a fan output event. -/
def isFanEv : PitEvent → Bool
  | PitEvent.fan _ => true
  | _ => false

/-- Predicate: a servo output event. -/
def isServoEv : PitEvent → Bool
  | PitEvent.servo _ => true
  | _ => false

/-- Predicate: a status event. -/
def isStatusEv : PitEvent → Bool
  | PitEvent.status _ => true
  | _ => false

/-- The `servoPct` fields of the status events of a trace. -/
def statusServoPcts (evs : List PitEvent) : List (Option ℚ) :=
  evs.filterMap (fun e => match e with
    | PitEvent.status r => some r.servoPct
    | _ => none)

/-! ## PitPID setters (each clamps exactly as the source does) -/

/-- `set pid`: updates only the provided terms. -/
def setPid (s : PitState) (p i d : Option ℚ) : PitState :=
  { s with pidP := p.getD s.pidP, pidI := i.getD s.pidI, pidD := d.getD s.pidD }

/-- `set pidMode`: also clears the lid timeout and zeroes the output. -/
def setPidMode (s : PitState) (m : ℕ) : PitState :=
  { s with pidMode := m, lidOpenTimeout := 0, pidOutput := 0 }

/-- `set fanMaxSpeed`: constrained to [0,100]. -/
def setFanMaxSpeed (s : PitState) (value : ℚ) : PitState :=
  { s with fanMaxSpeed := constrain value 0 100 }

/-- `set fanMaxStartupSpeed`: constrained to [0,100]. -/
def setFanMaxStartupSpeed (s : PitState) (value : ℚ) : PitState :=
  { s with fanMaxStartupSpeed := constrain value 0 100 }

/-- `set fanActiveFloor`: constrained to [0,99] to prevent a divide by 0. -/
def setFanActiveFloor (s : PitState) (value : ℚ) : PitState :=
  { s with fanActiveFloor := constrain value 0 99 }

/-- `set fanMinSpeed`: constrained to [0,100]. -/
def setFanMinSpeed (s : PitState) (value : ℚ) : PitState :=
  { s with fanMinSpeed := constrain value 0 100 }

/-- `set servoMinPos`: constrained to [0,100]. -/
def setServoMinPos (s : PitState) (value : ℚ) : PitState :=
  { s with servoMinPos := constrain value 0 100 }

/-- `set servoMaxPos`: constrained to [0,100]. -/
def setServoMaxPos (s : PitState) (value : ℚ) : PitState :=
  { s with servoMaxPos := constrain value 0 100 }

/-- `set lidOpenOffset`: constrained to [0,100]. -/
def setLidOpenOffset (s : PitState) (value : ℚ) : PitState :=
  { s with lidOpenOffset := constrain value 0 100 }

/-- `set lidOpenDuration`: at least LIDOPEN_MIN_AUTORESUME. -/
def setLidOpenDuration (s : PitState) (value : ℚ) : PitState :=
  { s with lidOpenDuration := if value > LIDOPEN_MIN_AUTORESUME then value else LIDOPEN_MIN_AUTORESUME }

/-- `set setPoint`: `this.pidMode = STARTUP` (via the mode setter) then store
the set point. -/
def setSetPoint (s : PitState) (value : ℚ) : PitState :=
  { setPidMode s PIDMODE_STARTUP with setPoint := some value }

/-- `set pidOutPut` (manual mode): mode setter to MANUAL, then the output
constrained to [0,100]. -/
def setPidOutPut (s : PitState) (value : ℚ) : PitState :=
  { setPidMode s PIDMODE_MANUAL with pidOutput := constrain value 0 100 }

/-! ## PitPID getters and per-tick procedures -/

/-- `get isPitTempReached` = `pidMode === PIDMODE.NORMAL`. -/
def isPitTempReached (s : PitState) : Bool := s.pidMode = PIDMODE_NORMAL

/-- `get isLidOpen` = `millis() < this._lidOpenTimeout`. -/
def isLidOpen (now : ℚ) (s : PitState) : Prop := now < s.lidOpenTimeout

instance (now : ℚ) (s : PitState) : Decidable (isLidOpen now s) := by
  unfold isLidOpen; infer_instance

/-- `get lidOpenResumeCountdown` = `(millis() - _lidOpenTimeout) / 1000`. -/
def lidOpenResumeCountdown (now : ℚ) (s : PitState) : ℚ :=
  (now - s.lidOpenTimeout) / 1000

/-- `get hasTemperature`: at least one probe and non-null, non-NaN current
temperature and temperature EMA (NaN is subsumed in `none`). -/
def hasTemperature (s : PitState) : Bool :=
  decide (0 < s.connectedProbes.length) && s.currentTemp.isSome && s.temperatureAvg.isSome

/-- `get fanCurrentMaxSpeed`: startup boost ceiling in STARTUP mode. -/
def fanCurrentMaxSpeed (s : PitState) : ℚ :=
  if s.pidMode = PIDMODE_STARTUP then s.fanMaxStartupSpeed else s.fanMaxSpeed

/-- `_getPidIMax()` = 100 once the set point is reached, else the startup
fan ceiling. -/
def getPidIMax (s : PitState) : ℚ :=
  if isPitTempReached s then 100 else s.fanMaxStartupSpeed

/-- `_tempProbeProcessPeriod()`: update the temperature EMA when the current
temperature is non-null. -/
def tempProbeProcessPeriod (s : PitState) : PitState :=
  match s.currentTemp with
  | none => s
  | some t =>
    { s with temperatureAvg := some (calcExpMovingAverage TEMPPROBE_AVG_SMOOTH s.temperatureAvg t) }

/-- `_resetLidOpenTimeout()`: RECOVERY mode, lid timeout
`millis() + _lidOpenOffset * 1000`. -/
def resetLidOpenTimeout (now : ℚ) (s : PitState) : PitState :=
  { s with pidMode := PIDMODE_RECOVERY, lidOpenTimeout := now + s.lidOpenOffset * 1000 }

/-- `_lidModeShouldActivate(tempDiff)`. The source evaluates
`this._lidOpenOffset > 0 && this.isPitTempReached() && ...`; `isPitTempReached`
is a getter, so `this.isPitTempReached()` calls a boolean as a function and
throws a TypeError whenever the first conjunct holds. `none` models the
throw; with `_lidOpenOffset ≤ 0` the `&&` short-circuits to false. -/
def lidModeShouldActivate (s : PitState) (tempDiff : ℚ) : Option Bool :=
  if s.lidOpenOffset > 0 then none else some false

/-- The PID P/I steps of `_calcPidOutput()` after the early returns: P term,
then the conditional integration. When `P < 0` the integration branch
evaluates `exHigh += (-1.0 + PID_PONMEER_LAMBDA) * Pid.P * this._setPoint`,
which throws a ReferenceError (`Pid` is not defined; `exHigh` is moreover a
`const`), modelled as `none`. -/
def pidIStep (lastOutput err high : ℚ) (s : PitState) : Option PitState :=
  if (err < 0 ∧ 0 < lastOutput) ∨ (0 < err ∧ lastOutput < high) then
    if s.pidP < 0 then none
    else some { s with pidCurrentI := constrain (s.pidCurrentI + s.pidI * err) 0 high }
  else some s

/-- Tail of `_calcPidOutput()`: D term (derivative on measurement) and the
clamped output. -/
def finishPid (s : PitState) : PitState :=
  let s1 := { s with
    pidCurrentD := s.pidD * (coerceNull s.temperatureAvg - coerceNull s.currentTemp) }
  { s1 with pidOutput := constrain (s1.pidCurrentP + s1.pidCurrentI + s1.pidCurrentD) 0 100 }

/-- `_calcPidOutput()`. The output is zeroed up front; without a temperature
the procedure returns with output 0 and the integrator untouched. The source
then tests `this._isLidOpen` — a property that is never assigned anywhere
(the getter is named `isLidOpen`), so the test reads `undefined` and the
lid-open early return never fires; no lid test appears below. `none` models
the ReferenceError thrown inside the P<0 integration branch. -/
def calcPidOutput (s : PitState) : Option PitState :=
  let lastOutput := s.pidOutput
  let s0 := { s with pidOutput := 0 }
  if hasTemperature s0 = false then some s0
  else
    let err := coerceNull s0.setPoint - coerceNull s0.currentTemp
    let s1 := { s0 with pidCurrentP :=
      if s0.pidP < 0 then
        s0.pidP * (-PID_PONMEER_LAMBDA * coerceNull s0.setPoint + coerceNull s0.currentTemp)
      else s0.pidP * err }
    (pidIStep lastOutput err (getPidIMax s1) s1).map finishPid

/-- `_emitStatusReport()` payload. -/
def emitStatusReport (s : PitState) : StatusReport where
  mode := PIDMODE_STR.getD s.pidMode ""
  numProbes := s.connectedProbes.length
  pitTemp := s.currentTemp
  setPoint := s.setPoint
  units := s.units
  pidOutput := s.pidOutput
  fanPct := s.fanPct
  servoPct := mapRange s.servoPct s.servoMinPos s.servoMaxPos 0 100

/-- `_commitServoOutput()`: position from the PID output through the active
ceiling and a LERP between min and max; emitted only on a move larger than
SERVO_MIN_THRESH or when the incremented hold-off exceeds SERVO_MAX_HOLDOFF. -/
def commitServoOutput (s : PitState) : PitState × List PitEvent :=
  let output0 := if s.pidOutput ≥ s.servoActiveCeil then (100 : ℚ)
    else s.pidOutput * 100 / s.servoActiveCeil
  let output := mapPct output0 s.servoMinPos s.servoMaxPos
  let holdoff := s.servoHoldoff + 1
  let isBigMove := |output - s.servoPct| > SERVO_MIN_THRESH
  if isBigMove ∨ holdoff > SERVO_MAX_HOLDOFF then
    ({ s with servoPct := output, servoHoldoff := 0 }, [PitEvent.servo output])
  else
    ({ s with servoHoldoff := holdoff }, [])

/-- `_commitFanOutput()`: active floor, re-map to the current max speed,
long-PWM (SRTP) bookkeeping for speeds below `_fanMinSpeed`, and the boost
emission on a 0 → non-0 edge (TEMP_OUTADJUST_CNT = 3 > 0). -/
def commitFanOutput (s : PitState) : PitState × List PitEvent :=
  let newFanSpeed0 :=
    if s.pidOutput < s.fanActiveFloor then (0 : ℚ)
    else (s.pidOutput - s.fanActiveFloor) * fanCurrentMaxSpeed s / (100 - s.fanActiveFloor)
  let runningDur := (s.longPwmTmr : ℚ) * TEMP_MEASURE_PERIOD
  let targetDur := (TEMP_LONG_PWM_CNT : ℚ) * TEMP_MEASURE_PERIOD / s.fanMinSpeed * newFanSpeed0
  let longPwm := ¬ newFanSpeed0 ≥ s.fanMinSpeed
  let newFanSpeed : ℚ :=
    if longPwm then (if targetDur > runningDur then s.fanMinSpeed else 0) else newFanSpeed0
  let remaining : ℚ :=
    if longPwm then (if targetDur > runningDur then targetDur - runningDur else 0) else 0
  let tmr : ℕ :=
    if longPwm then (if s.longPwmTmr + 1 > TEMP_LONG_PWM_CNT - 1 then 0 else s.longPwmTmr + 1)
    else 0
  let s1 := { s with longPwmRemaining := remaining, longPwmTmr := tmr, fanPct := newFanSpeed }
  if s1.fanPct = 0 then
    let s2 := { s1 with lastBlowerOutput := 0 }
    (s2, [PitEvent.fan s2.lastBlowerOutput])
  else
    let needBoost := s1.lastBlowerOutput = 0
    let s2 := { s1 with lastBlowerOutput := s1.fanPct }
    if needBoost then (s2, [PitEvent.fan 100])
    else (s2, [PitEvent.fan s2.lastBlowerOutput])

/-- `_commitPidOutput()`: output EMA, then fan commit, then servo commit,
then the status report. -/
def commitPidOutput (s : PitState) : PitState × List PitEvent :=
  let s1 := { s with
    pidOutputAvg := calcExpMovingAverage PID_OUTPUT_AVG_SMOOTH (some s.pidOutputAvg) s.pidOutput }
  let fanR := commitFanOutput s1
  let servoR := commitServoOutput fanR.1
  (servoR.1, fanR.2 ++ servoR.2 ++ [PitEvent.status (emitStatusReport servoR.1)])

/-- Mode transitions of the heavy tick (evaluated in source order): set-point
reached, active countdown carry, lid-open activation. `none` models the
TypeError thrown inside `_lidModeShouldActivate`. -/
def modeTransitions (now tempDiff : ℚ) (s : PitState) : Option PitState :=
  if tempDiff ≤ 0 ∧ s.lidOpenDuration - lidOpenResumeCountdown now s ≥ LIDOPEN_MIN_AUTORESUME then
    let s1 := if s.pidMode = PIDMODE_STARTUP then { s with pidCurrentI := s.pidCurrentI * (1 / 2) } else s
    some { s1 with pidMode := PIDMODE_NORMAL, lidOpenTimeout := 0 }
  else if lidOpenResumeCountdown now s ≠ 0 then
    some { s with lidOpenTimeout := lidOpenResumeCountdown now s * 1000 - TEMP_MEASURE_PERIOD }
  else
    match lidModeShouldActivate s tempDiff with
    | none => none
    | some b => some (if b then resetLidOpenTimeout now s else s)

/-- Sub-tick long-PWM phase of `doWork()`: when a long-PWM on-quota is
pending and exhausted, the source emits `this._fanMaxSpeed` (not 0) and
records `_lastBlowerOutput = 0`. -/
def longPwmPhase (elapsed : ℚ) (s : PitState) : PitState × List PitEvent :=
  if s.longPwmRemaining ≠ 0 ∧ elapsed > s.longPwmRemaining then
    ({ s with longPwmRemaining := 0, lastBlowerOutput := 0 }, [PitEvent.fan s.fanMaxSpeed])
  else (s, [])

/-- Period-counter phase of `doWork()` (TEMP_OUTADJUST_CNT = 3 > 0, so the
outer guard always passes). The counter is written but never read elsewhere. -/
def periodCounterPhase (elapsed : ℚ) (s : PitState) : PitState :=
  if elapsed > s.periodCounter * (TEMP_MEASURE_PERIOD / (TEMP_OUTADJUST_CNT : ℚ)) then
    { s with periodCounter := s.periodCounter + 1 }
  else s

/-- Heavy part of `doWork()` (elapsed ≥ TEMP_MEASURE_PERIOD): temperature
EMA, PID when automatic, mode transitions, output commit. `none` models an
uncaught exception (which kills the node process). -/
def heavyPhase (now : ℚ) (s : PitState) : Option (PitState × List PitEvent) :=
  let s1 := { s with periodCounter := 1, lastWorkMillis := now }
  let s2 := tempProbeProcessPeriod s1
  match (if s2.pidMode ≤ PIDMODE_AUTO_LAST then calcPidOutput s2 else some s2) with
  | none => none
  | some s3 =>
    let tempDiff := coerceNull s3.setPoint - coerceNull s3.currentTemp
    match modeTransitions now tempDiff s3 with
    | none => none
    | some s4 => some (commitPidOutput s4)

/-- One invocation of `doWork()` at wall-clock `now` (all `millis()` calls of
one invocation read the same value). -/
def doWork (now : ℚ) (s : PitState) : Option (PitState × List PitEvent) :=
  let elapsed := now - s.lastWorkMillis
  let pwmR := longPwmPhase elapsed s
  let s2 := periodCounterPhase elapsed pwmR.1
  if elapsed < TEMP_MEASURE_PERIOD then some (s2, pwmR.2)
  else
    match heavyPhase now s2 with
    | none => none
    | some r => some (r.1, pwmR.2 ++ r.2)

/-- `updateProbe(data)`: insert or update the probe entry, switch units (and
clear the temperature EMA) on a unit change, then recompute the fused
current temperature. -/
def updateProbe (s : PitState) (data : ProbeUpdateData) : PitState :=
  let probes :=
    if s.connectedProbes.any (fun p => p.1 = data.address) then
      s.connectedProbes.map (fun p =>
        if p.1 = data.address then (p.1, ConnectedProbe.mk data.timestamp data.ambient) else p)
    else s.connectedProbes ++ [(data.address, ConnectedProbe.mk data.timestamp data.ambient)]
  let s1 := { s with connectedProbes := probes }
  let s2 := if some data.units ≠ s1.units then
      { s1 with units := some data.units, temperatureAvg := none }
    else s1
  { s2 with currentTemp :=
      jsvalToOption (calcLowerTrimmedMean (s2.connectedProbes.map (fun p => p.2.ambient))
        TEMP_DEV_THRESHOLD) }

/-- `removeProbe(address)`: delete the entry. -/
def removeProbe (s : PitState) (address : String) : PitState :=
  { s with connectedProbes := s.connectedProbes.filter (fun p => p.1 ≠ address) }

/-- Reachable controller states: the constructor state closed under every
public mutator and under successful `doWork` invocations (an invocation that
throws kills the node process, so no later state arises from it). -/
inductive Reachable : PitState → Prop where
  | init : Reachable initState
  | pid (s p i d) : Reachable s → Reachable (setPid s p i d)
  | mode (s m) : Reachable s → Reachable (setPidMode s m)
  | fanMax (s v) : Reachable s → Reachable (setFanMaxSpeed s v)
  | fanMaxStartup (s v) : Reachable s → Reachable (setFanMaxStartupSpeed s v)
  | fanFloor (s v) : Reachable s → Reachable (setFanActiveFloor s v)
  | fanMin (s v) : Reachable s → Reachable (setFanMinSpeed s v)
  | servoMin (s v) : Reachable s → Reachable (setServoMinPos s v)
  | servoMax (s v) : Reachable s → Reachable (setServoMaxPos s v)
  | lidOffset (s v) : Reachable s → Reachable (setLidOpenOffset s v)
  | lidDuration (s v) : Reachable s → Reachable (setLidOpenDuration s v)
  | point (s v) : Reachable s → Reachable (setSetPoint s v)
  | manual (s v) : Reachable s → Reachable (setPidOutPut s v)
  | probe (s d) : Reachable s → Reachable (updateProbe s d)
  | rmProbe (s a) : Reachable s → Reachable (removeProbe s a)
  | work (s s' evs now) : Reachable s → doWork now s = some (s', evs) → Reachable s'

/-- Controller invariant maintained by every reachable state: the committed
PID output and the fan configuration percentages stay in their documented
ranges. -/
def PitInv (s : PitState) : Prop :=
  0 ≤ s.pidOutput ∧ s.pidOutput ≤ 100 ∧
  0 ≤ s.fanActiveFloor ∧ s.fanActiveFloor ≤ 99 ∧
  0 ≤ s.fanMinSpeed ∧ s.fanMinSpeed ≤ 100 ∧
  0 ≤ s.fanMaxSpeed ∧ s.fanMaxSpeed ≤ 100 ∧
  0 ≤ s.fanMaxStartupSpeed ∧ s.fanMaxStartupSpeed ≤ 100

/-! ## Concrete states used by witnesses and counterexamples -/

/-- A connected-probe entry reporting 200 degrees, used by several concrete
scenarios. -/
def exProbe : String × ConnectedProbe := ("aa:bb", ConnectedProbe.mk 0 200)

/-- Scenario for C1: automatic startup, set point 250, fused temperature 200,
temperature EMA 200, default gains. -/
def exC1 : PitState := { initState with
  setPoint := some 250, currentTemp := some 200, temperatureAvg := some 200,
  connectedProbes := [exProbe] }

/-- Scenario for C4: same as `exC1` but with a lid timeout in the future, so
the lid is considered open at time 1000. -/
def exC4 : PitState := { exC1 with lidOpenTimeout := 5000 }

/-- Scenario for C5 (spec §8 scenario 3): mode Normal, set point 250, current
200, lid-open offset 20 %, output EMA 55, lid countdown exactly zero at time
250000, a heavy tick due. -/
def exC5 : PitState := { initState with
  pidMode := PIDMODE_NORMAL, setPoint := some 250, currentTemp := some 200,
  temperatureAvg := some 200, connectedProbes := [exProbe],
  pidOutputAvg := 55, pidOutput := 55, lidOpenOffset := 20,
  lidOpenTimeout := 250000, lastWorkMillis := 249000 }

/-- Scenario for C6 (sub-tick): a pending long-PWM on-quota of 500 ms,
exhausted by the 250 ms sub-tick arriving at 750 ms. -/
def exC6 : PitState := { initState with longPwmRemaining := 500 }

/-- Scenario for C6 (window pattern): mapped fan speed 20 below
`fan_min_speed` 50 (active floor 0, max speed 100, mode Normal). -/
def exC6w : PitState := { initState with
  pidMode := PIDMODE_NORMAL, pidOutput := 20, fanActiveFloor := 0,
  fanMaxSpeed := 100, fanMinSpeed := 50 }

/-- Scenario for C7's counterexample: `servo_min_pos = servo_max_pos = 50`
(both accepted by their setters) and a set point, reached by public calls
from the constructor state. -/
def exC7 : PitState := setSetPoint (setServoMaxPos (setServoMinPos initState 50) 50) 250

/-- Scenario for C8: P-on-measurement gain `P = -2` with the integration
condition satisfied (error 50 > 0, previous output 0 < i_max). -/
def exC8 : PitState := { exC1 with pidP := -2 }

/-- Variant of `exC8` whose previous output saturates the integration
condition, so the throwing branch is skipped. -/
def exC8b : PitState := { exC8 with pidOutput := 100 }

/-- Fan-percent trace of `n` consecutive committed measurement periods with
an otherwise unchanged controller state (the long-PWM window unfolding). -/
def iterCommitFan : ℕ → PitState → List ℚ
  | 0, _ => []
  | n + 1, s => (commitFanOutput s).1.fanPct :: iterCommitFan n (commitFanOutput s).1

/-- Equality of the configuration fields that the tick never mutates and the
status-bound arguments depend on. -/
def FieldsEq (a b : PitState) : Prop :=
  a.fanActiveFloor = b.fanActiveFloor ∧ a.fanMinSpeed = b.fanMinSpeed ∧
  a.fanMaxSpeed = b.fanMaxSpeed ∧ a.fanMaxStartupSpeed = b.fanMaxStartupSpeed ∧
  a.servoMinPos = b.servoMinPos ∧ a.servoMaxPos = b.servoMaxPos

/-! ## Helper lemmas -/

/-- The clamp lands in the interval when the bounds are ordered. -/
theorem constrain_mem (v lo hi : ℚ) (h : lo ≤ hi) :
    lo ≤ constrain v lo hi ∧ constrain v lo hi ≤ hi := by
  unfold constrain
  constructor
  · exact le_min (le_max_right v lo) h
  · exact min_le_right _ _

/-- Mapping any value into `[0,100]` through `mapRange` succeeds and lands in
`[0,100]` as soon as the source bounds differ (with `min > max` the clamp
pins the value to `max` and the map returns 100). -/
theorem mapRange_bounds (v mn mx : ℚ) (h : mn ≠ mx) :
    ∃ w, mapRange v mn mx 0 100 = some w ∧ 0 ≤ w ∧ w ≤ 100 := by
  unfold mapRange
  rw [if_neg (Ne.symm h)]
  refine ⟨_, rfl, ?_⟩
  rcases lt_or_gt_of_ne h with hlt | hgt
  · have hc := constrain_mem v mn mx (le_of_lt hlt)
    have hd : 0 < mx - mn := by linarith
    constructor
    · have h0 : 0 ≤ (constrain v mn mx - mn) / (mx - mn) :=
        div_nonneg (by linarith [hc.1]) (le_of_lt hd)
      nlinarith
    · have h1 : (constrain v mn mx - mn) / (mx - mn) ≤ 1 := by
        rw [div_le_one hd]; linarith [hc.2]
      nlinarith [div_nonneg (by linarith [hc.1] : (0:ℚ) ≤ constrain v mn mx - mn) (le_of_lt hd)]
  · have hcv : constrain v mn mx = mx := by
      unfold constrain
      have : mx ≤ max v mn := le_trans (le_of_lt hgt) (le_max_right v mn)
      exact min_eq_right this
    rw [hcv]
    have hd : mx - mn ≠ 0 := by intro h0; apply h; linarith [sub_eq_zero.mp h0]
    rw [div_self hd]
    norm_num

/-- The fan re-map `(u - floor) * max / (100 - floor)` stays within `[0,100]`
for outputs in `[floor, 100]`, floors in `[0,99]` and max speeds in `[0,100]`. -/
theorem fanRemap_bounds (out floor m : ℚ) (hof : floor ≤ out) (ho1 : out ≤ 100)
    (hf0 : 0 ≤ floor) (hf1 : floor ≤ 99) (hm0 : 0 ≤ m) (hm1 : m ≤ 100) :
    0 ≤ (out - floor) * m / (100 - floor) ∧ (out - floor) * m / (100 - floor) ≤ 100 := by
  have hd : 0 < 100 - floor := by linarith
  constructor
  · exact div_nonneg (mul_nonneg (by linarith) hm0) (le_of_lt hd)
  · rw [div_le_iff₀ hd]
    nlinarith

/-- A nonempty list has a member at least as large as its mean. -/
theorem exists_mean_le (X : List ℚ) (h : X ≠ []) : ∃ v ∈ X, listMean X ≤ v := by
  by_contra hcon
  push_neg at hcon
  have hlen : 0 < (X.length : ℚ) := by
    have := List.length_pos.mpr h
    exact_mod_cast this
  have hsum : X.sum < X.length * listMean X := by
    have key : ∀ (l : List ℚ) (c : ℚ), l ≠ [] → (∀ v ∈ l, v < c) → l.sum < l.length * c := by
      intro l
      induction l with
      | nil => intro c hne _; exact absurd rfl hne
      | cons x xs ih =>
        intro c _ hall
        rcases eq_or_ne xs [] with hxs | hxs
        · subst hxs
          simpa using hall x (by simp)
        · have h1 := ih c hxs (fun v hv => hall v (List.mem_cons_of_mem x hv))
          have h2 := hall x (List.mem_cons_self x xs)
          simp only [List.sum_cons, List.length_cons]
          push_cast
          nlinarith
    exact key X (listMean X) h hcon
  unfold listMean at hsum
  rw [mul_div_cancel₀ _ (ne_of_gt hlen)] at hsum
  exact lt_irrefl _ hsum

/-- The population variance the source computes is nonnegative. -/
theorem listPopVar_nonneg (X : List ℚ) : 0 ≤ listPopVar X := by
  unfold listPopVar
  apply div_nonneg
  · apply List.sum_nonneg
    intro x hx
    rcases List.mem_map.mp hx with ⟨v, _, rfl⟩
    positivity
  · positivity

/-- The decidable filter condition `retainedB` agrees with the source's
`value >= mean - k * Math.sqrt(variance)` for every nonnegative threshold
and variance. -/
theorem retainedB_iff_sqrt (k mean variance value : ℚ) (hk : 0 ≤ k) (hv : 0 ≤ variance) :
    retainedB k mean variance value = true ↔
      (mean : ℝ) - (k : ℝ) * Real.sqrt (variance : ℝ) ≤ (value : ℝ) := by
  have hvR : (0 : ℝ) ≤ (variance : ℝ) := by exact_mod_cast hv
  have hkR : (0 : ℝ) ≤ (k : ℝ) := by exact_mod_cast hk
  have hsq : (0 : ℝ) ≤ Real.sqrt (variance : ℝ) := Real.sqrt_nonneg _
  unfold retainedB
  split_ifs with h
  · simp only [true_iff]
    have h' : (mean : ℝ) ≤ (value : ℝ) := by
      have : mean ≤ value := by linarith
      exact_mod_cast this
    nlinarith
  · rw [decide_eq_true_eq]
    have hpos : (0 : ℝ) < (mean : ℝ) - (value : ℝ) := by
      have : value < mean := by push_neg at h; linarith
      have h2 : (value : ℝ) < (mean : ℝ) := by exact_mod_cast this
      linarith
    have hks : (k : ℝ) * Real.sqrt (variance : ℝ) = Real.sqrt ((k : ℝ) ^ 2 * (variance : ℝ)) := by
      rw [Real.sqrt_mul (by positivity) _, Real.sqrt_sq hkR]
    constructor
    · intro hle
      have hleR : ((mean : ℝ) - (value : ℝ)) ^ 2 ≤ (k : ℝ) ^ 2 * (variance : ℝ) := by
        exact_mod_cast hle
      have := (Real.le_sqrt (le_of_lt hpos) (by positivity)).mpr hleR
      rw [← hks] at this
      linarith
    · intro hle
      have h1 : (mean : ℝ) - (value : ℝ) ≤ Real.sqrt ((k : ℝ) ^ 2 * (variance : ℝ)) := by
        rw [← hks]; linarith
      have := (Real.le_sqrt (le_of_lt hpos) (by positivity)).mp h1
      exact_mod_cast this

/-! ## C2 — lower-trimmed-mean temperature fusion -/

/-- C2 (amended): `calcLowerTrimmedMean` with a nonnegative threshold:
on the empty list it returns NaN (not null); on `[x]` it returns `x`
unchanged; on a nonempty list it returns the arithmetic mean of the values
retained by the filter, and the filter retains exactly the values
`≥ mean − k·σ` with σ the real square root of the population variance. -/
theorem c2_trimmed_mean (X : List ℚ) (k : ℚ) (hk : 0 ≤ k) :
    (X = [] → calcLowerTrimmedMean X k = JSVal.nan) ∧
    (∀ x : ℚ, X = [x] → calcLowerTrimmedMean X k = JSVal.num x) ∧
    (X ≠ [] →
      ∃ T : List ℚ,
        T = X.filter (fun v => retainedB k (listMean X) (listPopVar X) v) ∧
        T ≠ [] ∧
        calcLowerTrimmedMean X k = JSVal.num (T.sum / T.length) ∧
        ∀ v : ℚ, (retainedB k (listMean X) (listPopVar X) v = true ↔
          (listMean X : ℝ) - (k : ℝ) * Real.sqrt (listPopVar X : ℝ) ≤ (v : ℝ))) := by
  refine ⟨?_, ?_, ?_⟩
  · intro h; subst h; rfl
  · intro x h; subst h
    simp [calcLowerTrimmedMean, listMean, listPopVar, retainedB]
  · intro hne
    refine ⟨_, rfl, ?_, ?_, ?_⟩
    · obtain ⟨v, hv, hvm⟩ := exists_mean_le X hne
      intro hnil
      have : v ∈ X.filter (fun v => retainedB k (listMean X) (listPopVar X) v) := by
        apply List.mem_filter.mpr
        refine ⟨hv, ?_⟩
        unfold retainedB
        rw [if_pos (by linarith)]
      rw [hnil] at this
      exact absurd this (List.not_mem_nil v)
    · unfold calcLowerTrimmedMean
      rw [if_neg (by simpa [List.isEmpty_iff] using hne)]
      simp only
      rw [if_neg]
      · rfl
      · obtain ⟨v, hv, hvm⟩ := exists_mean_le X hne
        simp only [List.isEmpty_iff]
        intro hnil
        have : v ∈ X.filter (fun v => retainedB k (listMean X) (listPopVar X) v) := by
          apply List.mem_filter.mpr
          refine ⟨hv, ?_⟩
          unfold retainedB
          rw [if_pos (by linarith)]
        rw [hnil] at this
        exact absurd this (List.not_mem_nil v)
    · intro v
      exact retainedB_iff_sqrt k (listMean X) (listPopVar X) v hk (listPopVar_nonneg X)

/-- C2 counterexample: on the empty list the source returns NaN
(`0/0` in JS), not null as the claim states. -/
theorem c2_empty_not_null :
    calcLowerTrimmedMean [] TEMP_DEV_THRESHOLD = JSVal.nan ∧ JSVal.nan ≠ JSVal.jsNull := by
  constructor
  · rfl
  · decide

/-- C2 witness: the amended theorem applied to the spec's own scenario
`[225, 228, 226, 75]` with threshold 0.5; the fused value is 679/3 = 226.33…
and the cold joiner 75 is dropped. -/
theorem c2_trimmed_mean_witness :
    (0 : ℚ) ≤ TEMP_DEV_THRESHOLD ∧
    calcLowerTrimmedMean [225, 228, 226, 75] TEMP_DEV_THRESHOLD = JSVal.num (679 / 3) ∧
    (([225, 228, 226, 75] : List ℚ) = [] →
      calcLowerTrimmedMean [225, 228, 226, 75] TEMP_DEV_THRESHOLD = JSVal.nan) :=
  ⟨by norm_num [TEMP_DEV_THRESHOLD],
    by norm_num [calcLowerTrimmedMean, listMean, listPopVar, retainedB, TEMP_DEV_THRESHOLD,
      List.filter],
    (c2_trimmed_mean [225, 228, 226, 75] TEMP_DEV_THRESHOLD
      (by norm_num [TEMP_DEV_THRESHOLD])).1⟩

/-! ## C9 — battery decoding -/

/-- C9 (amended): the battery value carried in the emitted Update reading is
the little-endian u16 of the two battery bytes multiplied by 10, with no
clamp; it stays within [0,100] exactly when the u16 is at most 10. -/
theorem c9_battery_scaling (b0 b1 : ℕ) :
    meaterBattery b0 b1 = (b1 * 256 + b0) * 10 ∧
    (meaterBattery b0 b1 ≤ 100 ↔ bytesToInt b0 b1 ≤ 10) := by
  unfold meaterBattery bytesToInt
  norm_num
  omega

/-- C9 counterexample: battery bytes `[11, 0]` (u16 = 11) are emitted as
110, which exceeds 100, so the emitted value is not the clamped value the
claim describes. -/
theorem c9_battery_unclamped :
    meaterBattery 11 0 = 110 ∧ ¬ meaterBattery 11 0 ≤ 100 ∧
    meaterBattery 11 0 ≠ min (max (meaterBattery 11 0) 0) 100 := by
  decide

/-! ## C10 — blacklist / whitelist -/

/-- C10 (amended): after `blacklist(x); whitelist(x)` the address `x` is not
blacklisted and every other address keeps its previous membership; the
membership of `x` itself is restored only when `x` was not blacklisted
before the two calls (whitelisting removes every copy of `x`). -/
theorem c10_blacklist_whitelist (bl : List String) (x : String) :
    isBlacklisted (whitelist (blacklist bl x) x) x = false ∧
    (∀ y, y ≠ x → isBlacklisted (whitelist (blacklist bl x) x) y = isBlacklisted bl y) ∧
    (isBlacklisted bl x = false →
      ∀ y, isBlacklisted (whitelist (blacklist bl x) x) y = isBlacklisted bl y) := by
  refine ⟨?_, ?_, ?_⟩
  · simp [isBlacklisted, whitelist, blacklist, removeItem, List.mem_filter]
  · intro y hyx
    simp only [isBlacklisted, whitelist, blacklist, removeItem]
    simp [List.mem_filter, List.mem_append, hyx]
  · intro hx y
    rcases eq_or_ne y x with rfl | hyx
    · simp only [isBlacklisted, whitelist, blacklist, removeItem] at hx ⊢
      simp only [List.contains_eq_any_beq, List.any_eq_false] at hx
      simp only [List.contains_eq_any_beq]
      have hL : ((bl ++ [y]).filter (fun value => decide (value ≠ y))).any (fun x => y == x)
          = false := by
        apply List.any_eq_false.mpr
        intro a ha
        have hmem := List.mem_filter.mp ha
        rcases List.mem_append.mp hmem.1 with hbl | hsing
        · exact hx a hbl
        · have : a = y := by simpa using hsing
          subst this
          simpa using hmem.2
      have hR : bl.any (fun x => y == x) = false := List.any_eq_false.mpr hx
      rw [hL, hR]
    · simp only [isBlacklisted, whitelist, blacklist, removeItem]
      simp [List.mem_filter, List.mem_append, hyx]

/-- C10 counterexample: with prior blacklist `["a"]`, the pair
`blacklist("a"); whitelist("a")` flips the membership of `"a"` from true to
false, because `whitelist` filters out every copy. -/
theorem c10_membership_changed :
    isBlacklisted ["a"] "a" = true ∧
    isBlacklisted (whitelist (blacklist ["a"] "a") "a") "a" = false := by
  constructor
  · rfl
  · rfl

/-- C10 witness: the amended theorem applied at blacklist `["c"]`, address
`"a"` and other address `"b"`. -/
theorem c10_blacklist_whitelist_witness :
    isBlacklisted (whitelist (blacklist ["c"] "a") "a") "a" = false ∧
    ("b" : String) ≠ "a" ∧
    isBlacklisted (whitelist (blacklist ["c"] "a") "a") "b" = isBlacklisted ["c"] "b" :=
  ⟨(c10_blacklist_whitelist ["c"] "a").1, by simp,
    (c10_blacklist_whitelist ["c"] "a").2.1 "b" (by simp)⟩

/-! ## C4 / C5 / C6 / C8 — code bugs, evaluated at their failing inputs -/

/-- C4: with the lid considered open (timeout 5000 at time 1000) and a
temperature available, `_calcPidOutput` still computes the full PID step —
output 100 and an updated integrator — because the source tests the
never-assigned property `_isLidOpen` instead of the getter `isLidOpen`. -/
theorem c4_lid_open_ignored :
    isLidOpen 1000 exC4 ∧ hasTemperature exC4 = true ∧
    (calcPidOutput exC4).map (fun t => t.pidOutput) = some 100 ∧
    (calcPidOutput exC4).map (fun t => t.pidCurrentI) = some (7 / 40) ∧
    exC4.pidCurrentI = 0 := by
  refine ⟨?_, ?_, ?_, ?_, ?_⟩ <;>
    norm_num [isLidOpen, hasTemperature, calcPidOutput, pidIStep, finishPid, getPidIMax,
      isPitTempReached, coerceNull, constrain, exC4, exC1, initState, exProbe,
      PIDMODE_NORMAL, PIDMODE_STARTUP, PID_PONMEER_LAMBDA]

/-- C5: in the spec's lid-open scenario (set point 250, current 200, offset
20 %, output EMA 55, mode Normal, countdown exactly zero) the heavy tick
crashes — `_lidModeShouldActivate` invokes the getter `isPitTempReached` as
a function, a TypeError — instead of entering Recovery. -/
theorem c5_lid_activation_throws :
    doWork 250000 exC5 = none ∧
    lidModeShouldActivate exC5 (coerceNull exC5.setPoint - coerceNull exC5.currentTemp) = none ∧
    exC5.pidMode = PIDMODE_NORMAL ∧ exC5.lidOpenOffset = 20 ∧ exC5.pidOutputAvg = 55 := by
  refine ⟨?_, ?_, ?_, ?_, ?_⟩
  · norm_num [doWork, longPwmPhase, periodCounterPhase, heavyPhase, tempProbeProcessPeriod,
      calcExpMovingAverage, calcPidOutput, pidIStep, finishPid, hasTemperature, getPidIMax,
      isPitTempReached, coerceNull, constrain, modeTransitions, lidOpenResumeCountdown,
      lidModeShouldActivate, resetLidOpenTimeout, exC5, initState, exProbe,
      PIDMODE_NORMAL, PIDMODE_STARTUP, PIDMODE_AUTO_LAST, PID_PONMEER_LAMBDA,
      TEMP_MEASURE_PERIOD, TEMP_OUTADJUST_CNT, TEMPPROBE_AVG_SMOOTH, LIDOPEN_MIN_AUTORESUME]
  · norm_num [lidModeShouldActivate, exC5, initState]
  · rfl
  · rfl
  · rfl

/-- C6: the long-PWM window duty pattern is as specified — mapped speed 20
with `fan_min_speed` 50 commits the fan at 50 for 4 of the 10 measurement
periods (on-quota 4000 ms) and at 0 for the rest — but when the 250 ms
sub-tick finds the on-quota exhausted it emits `_fanMaxSpeed` (80 here),
not 0, even though it records `_lastBlowerOutput = 0`. -/
theorem c6_long_pwm :
    iterCommitFan 10 exC6w = [50, 50, 50, 50, 0, 0, 0, 0, 0, 0] ∧
    (commitFanOutput exC6w).1.longPwmRemaining = 4000 ∧
    (doWork 750 exC6).map Prod.snd = some [PitEvent.fan 80] ∧
    (doWork 750 exC6).map (fun p => p.1.lastBlowerOutput) = some 0 ∧
    (80 : ℚ) ≠ 0 := by
  refine ⟨?_, ?_, ?_, ?_, ?_⟩
  · norm_num [iterCommitFan, commitFanOutput, fanCurrentMaxSpeed, constrain, exC6w, initState,
      PIDMODE_NORMAL, PIDMODE_STARTUP, TEMP_MEASURE_PERIOD, TEMP_LONG_PWM_CNT]
  · norm_num [iterCommitFan, commitFanOutput, fanCurrentMaxSpeed, constrain, exC6w, initState,
      PIDMODE_NORMAL, PIDMODE_STARTUP, TEMP_MEASURE_PERIOD, TEMP_LONG_PWM_CNT]
  · norm_num [doWork, longPwmPhase, periodCounterPhase, exC6, initState,
      TEMP_MEASURE_PERIOD, TEMP_OUTADJUST_CNT]
  · norm_num [doWork, longPwmPhase, periodCounterPhase, exC6, initState,
      TEMP_MEASURE_PERIOD, TEMP_OUTADJUST_CNT]
  · norm_num

/-- C8: with `P = -2` and the integration condition satisfied (error 50 > 0,
previous output 0 < i_max) `_calcPidOutput` throws — the integrator-bound
extension reads the undefined name `Pid` and assigns to the `const exHigh` —
while the P-on-measurement term itself is computed as specified
(`-2 · (−0.4·250 + 200) = −200`, observable when the integration condition
is off). -/
theorem c8_pom_integration_throws :
    calcPidOutput exC8 = none ∧ exC8.pidP < 0 ∧
    (calcPidOutput exC8b).map (fun t => t.pidCurrentP) =
      some (exC8b.pidP * (-PID_PONMEER_LAMBDA * 250 + 200)) ∧
    (calcPidOutput exC8b).map (fun t => t.pidCurrentI) = some exC8b.pidCurrentI := by
  refine ⟨?_, ?_, ?_, ?_⟩ <;>
    norm_num [calcPidOutput, pidIStep, finishPid, hasTemperature, getPidIMax,
      isPitTempReached, coerceNull, constrain, exC8, exC8b, exC1, initState, exProbe,
      PIDMODE_NORMAL, PIDMODE_STARTUP, PID_PONMEER_LAMBDA]

/-! ## C3 — event ordering within a tick's commit phase -/

/-- C3 counterexample: a heavy tick from the constructor state emits a fan
event and a status event but no servo event (the servo hold-off suppresses
it), so a tick does not always emit exactly one servo event before its
status event. -/
theorem c3_no_servo_emission :
    (doWork 2000 initState).map (fun p => p.2.countP isServoEv) = some 0 ∧
    (doWork 2000 initState).map (fun p => p.2.countP isStatusEv) = some 1 ∧
    (doWork 2000 initState).map (fun p => p.2.countP isFanEv) = some 1 := by
  refine ⟨?_, ?_, ?_⟩ <;>
    norm_num [doWork, longPwmPhase, periodCounterPhase, heavyPhase, tempProbeProcessPeriod,
      calcExpMovingAverage, calcPidOutput, pidIStep, finishPid, hasTemperature, getPidIMax,
      isPitTempReached, coerceNull, constrain, modeTransitions, lidOpenResumeCountdown,
      lidModeShouldActivate, resetLidOpenTimeout, commitPidOutput, commitFanOutput,
      commitServoOutput, emitStatusReport, fanCurrentMaxSpeed, mapPct, mapRange,
      isServoEv, isStatusEv, isFanEv, List.countP, List.countP.go, initState,
      PIDMODE_NORMAL, PIDMODE_STARTUP, PIDMODE_AUTO_LAST, PIDMODE_STR, PID_PONMEER_LAMBDA,
      TEMP_MEASURE_PERIOD, TEMP_OUTADJUST_CNT, TEMP_LONG_PWM_CNT, TEMPPROBE_AVG_SMOOTH,
      LIDOPEN_MIN_AUTORESUME, SERVO_MIN_THRESH, SERVO_MAX_HOLDOFF, PID_OUTPUT_AVG_SMOOTH]

/-! ## C7 — counterexample to the status-bounds claim as stated -/

/-- C7 counterexample: setting `servo_min_pos = servo_max_pos = 50` (both
accepted by their setters) makes the status snapshot's `servoPct` the JS
`NaN` (`0/0` in `mapRange`), modelled `none` — not a value in [0,100]. -/
theorem c7_servo_pct_nan :
    (doWork 5000 exC7).map (fun p => statusServoPcts p.2) = some [none] ∧
    (doWork 5000 exC7).map (fun p => p.2.countP isStatusEv) = some 1 := by
  constructor <;>
    norm_num [doWork, longPwmPhase, periodCounterPhase, heavyPhase, tempProbeProcessPeriod,
      calcExpMovingAverage, calcPidOutput, pidIStep, finishPid, hasTemperature, getPidIMax,
      isPitTempReached, coerceNull, constrain, modeTransitions, lidOpenResumeCountdown,
      lidModeShouldActivate, resetLidOpenTimeout, commitPidOutput, commitFanOutput,
      commitServoOutput, emitStatusReport, fanCurrentMaxSpeed, mapPct, mapRange,
      statusServoPcts, isStatusEv, List.countP, List.countP.go, List.filterMap_cons,
      exC7, setSetPoint, setServoMaxPos, setServoMinPos, setPidMode, initState,
      PIDMODE_NORMAL, PIDMODE_STARTUP, PIDMODE_AUTO_LAST, PIDMODE_STR, PID_PONMEER_LAMBDA,
      TEMP_MEASURE_PERIOD, TEMP_OUTADJUST_CNT, TEMP_LONG_PWM_CNT, TEMPPROBE_AVG_SMOOTH,
      LIDOPEN_MIN_AUTORESUME, SERVO_MIN_THRESH, SERVO_MAX_HOLDOFF, PID_OUTPUT_AVG_SMOOTH]

/-! ## C1 — PID computation with P ≥ 0 -/

/-- C1: on a heavy tick in an automatic mode with a fused temperature,
lid not considered open and gain `P ≥ 0`, `_calcPidOutput` succeeds and
produces `p = P·(set_point − current_temp)`; the integrator is incremented
by `I·e` exactly when `(e<0 ∧ u⁻>0) ∨ (e>0 ∧ u⁻<i_max)` and then clamped to
`[0, i_max]` with `i_max = 100` in mode Normal (set point reached) and
`fan_max_startup_speed` otherwise; `d = D·(temp_ema − current_temp)`; and
the committed output is `clamp(p + i + d, 0, 100)`. -/
theorem c1_pid_computation (s : PitState) (now sp ct ta : ℚ)
    (hmode : s.pidMode ≤ PIDMODE_AUTO_LAST)
    (htemp : hasTemperature s = true)
    (hlid : ¬ isLidOpen now s)
    (hP : 0 ≤ s.pidP)
    (hsp : s.setPoint = some sp) (hct : s.currentTemp = some ct)
    (hta : s.temperatureAvg = some ta) :
    ∃ s', calcPidOutput s = some s' ∧
      s'.pidCurrentP = s.pidP * (sp - ct) ∧
      s'.pidCurrentI =
        (if (sp - ct < 0 ∧ 0 < s.pidOutput) ∨ (0 < sp - ct ∧ s.pidOutput < getPidIMax s)
          then constrain (s.pidCurrentI + s.pidI * (sp - ct)) 0 (getPidIMax s)
          else s.pidCurrentI) ∧
      s'.pidCurrentD = s.pidD * (ta - ct) ∧
      s'.pidOutput = constrain (s'.pidCurrentP + s'.pidCurrentI + s'.pidCurrentD) 0 100 ∧
      getPidIMax s = (if s.pidMode = PIDMODE_NORMAL then (100 : ℚ) else s.fanMaxStartupSpeed) := by
  have hP' : ¬ s.pidP < 0 := not_lt.mpr hP
  have htemp0 : hasTemperature { s with pidOutput := 0 } = true := by
    simpa [hasTemperature] using htemp
  have hgx : ∀ t : PitState, t.pidMode = s.pidMode → t.fanMaxStartupSpeed = s.fanMaxStartupSpeed →
      getPidIMax t = getPidIMax s := by
    intro t h1 h2
    simp [getPidIMax, isPitTempReached, h1, h2]
  unfold calcPidOutput
  rw [if_neg (by simp [htemp0])]
  simp only [hsp, hct, hta, coerceNull, Option.getD_some]
  rw [if_neg hP']
  unfold pidIStep
  by_cases hcond : (sp - ct < 0 ∧ 0 < s.pidOutput) ∨ (0 < sp - ct ∧ s.pidOutput < getPidIMax s)
  · rw [if_pos (by simpa [hgx] using hcond)]
    rw [if_neg hP']
    refine ⟨_, rfl, ?_, ?_, ?_, ?_, ?_⟩
    · simp [finishPid]
    · rw [if_pos hcond]
      simp [finishPid, getPidIMax, isPitTempReached]
    · simp [finishPid, hta, hct, coerceNull]
    · simp [finishPid]
    · simp [getPidIMax, isPitTempReached, PIDMODE_NORMAL]
  · rw [if_neg (by simpa [hgx] using hcond)]
    refine ⟨_, rfl, ?_, ?_, ?_, ?_, ?_⟩
    · simp [finishPid]
    · rw [if_neg hcond]
      simp [finishPid]
    · simp [finishPid, hta, hct, coerceNull]
    · simp [finishPid]
    · simp [getPidIMax, isPitTempReached, PIDMODE_NORMAL]

/-- C1 witness: the theorem applied to the startup scenario `exC1`
(set point 250, current 200, EMA 200, default gains, previous output 0). -/
theorem c1_pid_computation_witness :
    exC1.pidMode ≤ PIDMODE_AUTO_LAST ∧ hasTemperature exC1 = true ∧
    ¬ isLidOpen 0 exC1 ∧ 0 ≤ exC1.pidP ∧
    ∃ s', calcPidOutput exC1 = some s' ∧
      s'.pidCurrentP = exC1.pidP * (250 - 200) ∧
      s'.pidCurrentI =
        (if ((250 : ℚ) - 200 < 0 ∧ 0 < exC1.pidOutput) ∨
            (0 < (250 : ℚ) - 200 ∧ exC1.pidOutput < getPidIMax exC1)
          then constrain (exC1.pidCurrentI + exC1.pidI * (250 - 200)) 0 (getPidIMax exC1)
          else exC1.pidCurrentI) ∧
      s'.pidCurrentD = exC1.pidD * (200 - 200) ∧
      s'.pidOutput = constrain (s'.pidCurrentP + s'.pidCurrentI + s'.pidCurrentD) 0 100 ∧
      getPidIMax exC1 =
        (if exC1.pidMode = PIDMODE_NORMAL then (100 : ℚ) else exC1.fanMaxStartupSpeed) :=
  ⟨by norm_num [exC1, initState, PIDMODE_AUTO_LAST, PIDMODE_STARTUP],
    by rfl,
    by norm_num [isLidOpen, exC1, initState],
    by norm_num [exC1, initState],
    c1_pid_computation exC1 0 250 200 200
      (by norm_num [exC1, initState, PIDMODE_AUTO_LAST, PIDMODE_STARTUP])
      (by rfl)
      (by norm_num [isLidOpen, exC1, initState])
      (by norm_num [exC1, initState])
      rfl rfl rfl⟩

/-- The fan commit emits exactly one fan event. -/
theorem commitFanOutput_snd (s : PitState) :
    ∃ f, (commitFanOutput s).2 = [PitEvent.fan f] := by
  unfold commitFanOutput
  dsimp only
  split_ifs <;> exact ⟨_, rfl⟩

/-- The servo commit emits either nothing or exactly one servo event. -/
theorem commitServoOutput_snd (s : PitState) :
    (commitServoOutput s).2 = [] ∨ ∃ w, (commitServoOutput s).2 = [PitEvent.servo w] := by
  unfold commitServoOutput
  dsimp only
  split_ifs <;> first
  | exact Or.inr ⟨_, rfl⟩
  | exact Or.inl rfl

/-- The long-PWM sub-tick phase emits either nothing or exactly one fan
event. -/
theorem longPwmPhase_snd (e : ℚ) (s : PitState) :
    (longPwmPhase e s).2 = [] ∨ ∃ v, (longPwmPhase e s).2 = [PitEvent.fan v] := by
  unfold longPwmPhase
  split_ifs
  · right; exact ⟨_, rfl⟩
  · left; rfl

/-- Shape of a commit-phase trace: one fan event, an optional servo event,
then the single status event. -/
theorem commit_trace_shape (s : PitState) :
    ∃ f r, (commitPidOutput s).2 = [PitEvent.fan f, PitEvent.status r] ∨
      ∃ w, (commitPidOutput s).2 = [PitEvent.fan f, PitEvent.servo w, PitEvent.status r] := by
  unfold commitPidOutput
  dsimp only
  obtain ⟨f, hf⟩ := commitFanOutput_snd _
  rcases commitServoOutput_snd ((commitFanOutput _).1) with hs | ⟨w, hs⟩
  · exact ⟨f, _, Or.inl (by rw [hf, hs]; rfl)⟩
  · exact ⟨f, _, Or.inr ⟨w, by rw [hf, hs]; rfl⟩⟩

/-- C3 (amended): the commit phase of every heavy tick emits exactly one fan
event and exactly one status event, in the order fan ≺ (servo) ≺ status;
the servo event is optional — it is suppressed when the move is within
SERVO_MIN_THRESH and the hold-off counter has not exceeded
SERVO_MAX_HOLDOFF. -/
theorem c3_commit_trace (s : PitState) :
    ∃ f r, (commitPidOutput s).2 = [PitEvent.fan f, PitEvent.status r] ∨
      ∃ w, (commitPidOutput s).2 = [PitEvent.fan f, PitEvent.servo w, PitEvent.status r] :=
  commit_trace_shape s

/-- FieldsEq is reflexive. -/
theorem fieldsEq_refl (s : PitState) : FieldsEq s s := ⟨rfl, rfl, rfl, rfl, rfl, rfl⟩

/-- FieldsEq is transitive. -/
theorem fieldsEq_trans {a b c : PitState} (h1 : FieldsEq a b) (h2 : FieldsEq b c) :
    FieldsEq a c := by
  obtain ⟨x1, x2, x3, x4, x5, x6⟩ := h1
  obtain ⟨y1, y2, y3, y4, y5, y6⟩ := h2
  exact ⟨x1.trans y1, x2.trans y2, x3.trans y3, x4.trans y4, x5.trans y5, x6.trans y6⟩

/-- The fan commit leaves the PID output, servo state and configuration
untouched. -/
theorem commitFanOutput_proj (s : PitState) :
    (commitFanOutput s).1.pidOutput = s.pidOutput ∧
    (commitFanOutput s).1.servoPct = s.servoPct ∧
    (commitFanOutput s).1.servoActiveCeil = s.servoActiveCeil ∧
    FieldsEq (commitFanOutput s).1 s := by
  unfold commitFanOutput
  dsimp only
  split_ifs <;> exact ⟨rfl, rfl, rfl, rfl, rfl, rfl, rfl, rfl, rfl⟩

/-- The servo commit leaves the PID output, the fan percentage and the
configuration untouched. -/
theorem commitServoOutput_proj (s : PitState) :
    (commitServoOutput s).1.pidOutput = s.pidOutput ∧
    (commitServoOutput s).1.fanPct = s.fanPct ∧
    FieldsEq (commitServoOutput s).1 s := by
  unfold commitServoOutput
  dsimp only
  split_ifs <;> exact ⟨rfl, rfl, rfl, rfl, rfl, rfl, rfl, rfl⟩

/-- The committed fan percentage stays in `[0,100]` when the configuration
and incoming output are within their documented ranges. -/
theorem commitFanOutput_fanPct (s : PitState)
    (h1 : 0 ≤ s.pidOutput) (h2 : s.pidOutput ≤ 100)
    (h3 : 0 ≤ s.fanActiveFloor) (h4 : s.fanActiveFloor ≤ 99)
    (h5 : 0 ≤ s.fanMinSpeed) (h6 : s.fanMinSpeed ≤ 100)
    (h7 : 0 ≤ s.fanMaxSpeed) (h8 : s.fanMaxSpeed ≤ 100)
    (h9 : 0 ≤ s.fanMaxStartupSpeed) (h10 : s.fanMaxStartupSpeed ≤ 100) :
    0 ≤ (commitFanOutput s).1.fanPct ∧ (commitFanOutput s).1.fanPct ≤ 100 := by
  have hfcm : 0 ≤ fanCurrentMaxSpeed s ∧ fanCurrentMaxSpeed s ≤ 100 := by
    unfold fanCurrentMaxSpeed
    split_ifs
    · exact ⟨h9, h10⟩
    · exact ⟨h7, h8⟩
  unfold commitFanOutput
  dsimp only
  split_ifs <;>
    first
      | exact ⟨h5, h6⟩
      | (refine fanRemap_bounds s.pidOutput s.fanActiveFloor (fanCurrentMaxSpeed s)
          (not_lt.mp ?_) h2 h3 h4 hfcm.1 hfcm.2
         assumption)
      | (constructor <;> norm_num)

/-- A successful PID computation leaves the configuration untouched and
yields an output in `[0,100]`. -/
theorem calcPidOutput_facts (s t : PitState) (h : calcPidOutput s = some t) :
    (0 ≤ t.pidOutput ∧ t.pidOutput ≤ 100) ∧ FieldsEq t s := by
  unfold calcPidOutput pidIStep at h
  dsimp only at h
  split_ifs at h
  · injection h with h'
    subst h'
    exact ⟨⟨le_refl 0, by norm_num⟩, fieldsEq_refl _⟩
  · exact absurd h (by simp)
  all_goals
    simp only [Option.map_some'] at h
    injection h with h'
    subst h'
    refine ⟨⟨?_, ?_⟩, ⟨rfl, rfl, rfl, rfl, rfl, rfl⟩⟩
  all_goals
    first
      | exact (constrain_mem _ 0 100 (by norm_num)).1
      | exact (constrain_mem _ 0 100 (by norm_num)).2

/-- A successful mode-transition step leaves the output and configuration
untouched. -/
theorem modeTransitions_facts (now tempDiff : ℚ) (s t : PitState)
    (h : modeTransitions now tempDiff s = some t) :
    t.pidOutput = s.pidOutput ∧ FieldsEq t s := by
  unfold modeTransitions lidModeShouldActivate resetLidOpenTimeout at h
  dsimp only at h
  split_ifs at h
  · injection h with h'
    subst h'
    exact ⟨rfl, rfl, rfl, rfl, rfl, rfl, rfl⟩
  · injection h with h'
    subst h'
    exact ⟨rfl, rfl, rfl, rfl, rfl, rfl, rfl⟩
  · injection h with h'
    subst h'
    exact ⟨rfl, rfl, rfl, rfl, rfl, rfl, rfl⟩
  · simp only [Bool.false_eq_true, if_false] at h
    injection h with h'
    subst h'
    exact ⟨rfl, rfl, rfl, rfl, rfl, rfl, rfl⟩

/-- The long-PWM sub-tick phase leaves the output and configuration
untouched. -/
theorem longPwmPhase_proj (e : ℚ) (s : PitState) :
    (longPwmPhase e s).1.pidOutput = s.pidOutput ∧ FieldsEq (longPwmPhase e s).1 s := by
  unfold longPwmPhase
  split_ifs <;> exact ⟨rfl, rfl, rfl, rfl, rfl, rfl, rfl⟩

/-- The period-counter phase leaves the output and configuration untouched. -/
theorem periodCounterPhase_proj (e : ℚ) (s : PitState) :
    (periodCounterPhase e s).pidOutput = s.pidOutput ∧ FieldsEq (periodCounterPhase e s) s := by
  unfold periodCounterPhase
  split_ifs <;> exact ⟨rfl, rfl, rfl, rfl, rfl, rfl, rfl⟩

/-- The temperature-EMA step leaves the output and configuration untouched. -/
theorem tempProbeProcessPeriod_proj (s : PitState) :
    (tempProbeProcessPeriod s).pidOutput = s.pidOutput ∧
    FieldsEq (tempProbeProcessPeriod s) s := by
  unfold tempProbeProcessPeriod
  rcases s.currentTemp with _ | t <;> exact ⟨rfl, rfl, rfl, rfl, rfl, rfl, rfl⟩

/-- `updateProbe` leaves the output and the output-relevant configuration
untouched. -/
theorem updateProbe_proj (s : PitState) (d : ProbeUpdateData) :
    (updateProbe s d).pidOutput = s.pidOutput ∧ FieldsEq (updateProbe s d) s := by
  unfold updateProbe
  dsimp only
  split_ifs <;> exact ⟨rfl, rfl, rfl, rfl, rfl, rfl, rfl⟩

/-- The commit phase leaves the PID output and configuration untouched. -/
theorem commitPidOutput_proj (s : PitState) :
    (commitPidOutput s).1.pidOutput = s.pidOutput ∧ FieldsEq (commitPidOutput s).1 s := by
  unfold commitPidOutput
  dsimp only
  obtain ⟨hso, hsf, hseq⟩ := commitServoOutput_proj (commitFanOutput
    { s with pidOutputAvg :=
        calcExpMovingAverage PID_OUTPUT_AVG_SMOOTH (some s.pidOutputAvg) s.pidOutput }).1
  obtain ⟨hfo, _, _, hfeq⟩ := commitFanOutput_proj
    { s with pidOutputAvg :=
        calcExpMovingAverage PID_OUTPUT_AVG_SMOOTH (some s.pidOutputAvg) s.pidOutput }
  exact ⟨hso.trans hfo, fieldsEq_trans hseq hfeq⟩

/-- Status events of the commit phase carry a PID output equal to the
incoming one, a fan percentage in `[0,100]` (given a well-configured state)
and, whenever the servo end-points differ, a servo percentage in `[0,100]`. -/
theorem commitPidOutput_status_bound (s : PitState)
    (h1 : 0 ≤ s.pidOutput) (h2 : s.pidOutput ≤ 100)
    (h3 : 0 ≤ s.fanActiveFloor) (h4 : s.fanActiveFloor ≤ 99)
    (h5 : 0 ≤ s.fanMinSpeed) (h6 : s.fanMinSpeed ≤ 100)
    (h7 : 0 ≤ s.fanMaxSpeed) (h8 : s.fanMaxSpeed ≤ 100)
    (h9 : 0 ≤ s.fanMaxStartupSpeed) (h10 : s.fanMaxStartupSpeed ≤ 100) :
    ∀ r, PitEvent.status r ∈ (commitPidOutput s).2 →
      (0 ≤ r.pidOutput ∧ r.pidOutput ≤ 100) ∧ (0 ≤ r.fanPct ∧ r.fanPct ≤ 100) ∧
      (s.servoMinPos ≠ s.servoMaxPos → ∃ w, r.servoPct = some w ∧ 0 ≤ w ∧ w ≤ 100) := by
  intro r hr
  unfold commitPidOutput at hr
  dsimp only at hr
  set s1 : PitState := { s with pidOutputAvg := calcExpMovingAverage PID_OUTPUT_AVG_SMOOTH (some s.pidOutputAvg) s.pidOutput } with hs1
  obtain ⟨f, hf⟩ := commitFanOutput_snd s1
  have hrr : r = emitStatusReport (commitServoOutput (commitFanOutput s1).1).1 := by
    rcases commitServoOutput_snd (commitFanOutput s1).1 with hsv | ⟨w, hsv⟩ <;>
      rw [hf, hsv] at hr <;> simp_all
  subst hrr
  obtain ⟨hfo, hfsp, hfsc, hffe⟩ := commitFanOutput_proj s1
  obtain ⟨hso, hsf, hsfe⟩ := commitServoOutput_proj (commitFanOutput s1).1
  obtain ⟨hffl, hfmn, hfmx, hfms, hfsm, hfsM⟩ := hffe
  obtain ⟨hsfl, hsmn, hsmx, hsms, hssm, hssM⟩ := hsfe
  refine ⟨?_, ?_, ?_⟩
  · simp only [emitStatusReport]
    rw [hso, hfo]
    exact ⟨h1, h2⟩
  · simp only [emitStatusReport]
    rw [hsf]
    exact commitFanOutput_fanPct s1 h1 h2 h3 h4 h5 h6 h7 h8 h9 h10
  · intro hne
    simp only [emitStatusReport]
    rw [hssm, hfsm, hssM, hfsM]
    exact mapRange_bounds _ _ _ hne

/-- A successful heavy phase is the commit of some intermediate state whose
output is in `[0,100]` (given an in-range incoming output) and whose
configuration equals the incoming one. -/
theorem heavyPhase_facts (now : ℚ) (s : PitState) (r : PitState × List PitEvent)
    (h : heavyPhase now s = some r) (hpo0 : 0 ≤ s.pidOutput) (hpo1 : s.pidOutput ≤ 100) :
    ∃ s4, r = commitPidOutput s4 ∧ 0 ≤ s4.pidOutput ∧ s4.pidOutput ≤ 100 ∧ FieldsEq s4 s := by
  unfold heavyPhase at h
  dsimp only at h
  set sA : PitState := tempProbeProcessPeriod { s with periodCounter := 1, lastWorkMillis := now } with hA
  have hAproj : sA.pidOutput = s.pidOutput ∧ FieldsEq sA s :=
    tempProbeProcessPeriod_proj { s with periodCounter := 1, lastWorkMillis := now }
  rcases hcalc : (if sA.pidMode ≤ PIDMODE_AUTO_LAST then calcPidOutput sA else some sA)
    with _ | s3
  · rw [hcalc] at h
    exact absurd h (by simp)
  · rw [hcalc] at h
    dsimp only at h
    have h3 : (0 ≤ s3.pidOutput ∧ s3.pidOutput ≤ 100) ∧ FieldsEq s3 sA := by
      split_ifs at hcalc with hm
      · exact calcPidOutput_facts sA s3 hcalc
      · injection hcalc with h'
        subst h'
        exact ⟨⟨by rw [hAproj.1]; exact hpo0, by rw [hAproj.1]; exact hpo1⟩, fieldsEq_refl _⟩
    rcases htr : modeTransitions now (coerceNull s3.setPoint - coerceNull s3.currentTemp) s3
      with _ | s4
    · rw [htr] at h
      exact absurd h (by simp)
    · rw [htr] at h
      dsimp only at h
      injection h with h'
      obtain ⟨hto, htf⟩ := modeTransitions_facts _ _ _ _ htr
      refine ⟨s4, h'.symm, ?_, ?_, fieldsEq_trans htf (fieldsEq_trans h3.2 hAproj.2)⟩
      · rw [hto]; exact h3.1.1
      · rw [hto]; exact h3.1.2

/-- Case analysis of one `doWork` invocation: a sub-tick passes the long-PWM
events through, a heavy tick appends a commit-phase trace of a state with
in-range output and unchanged configuration. -/
theorem doWork_facts (now : ℚ) (s : PitState) (s' : PitState) (evs : List PitEvent)
    (h : doWork now s = some (s', evs)) (hpo0 : 0 ≤ s.pidOutput) (hpo1 : s.pidOutput ≤ 100) :
    (now - s.lastWorkMillis < TEMP_MEASURE_PERIOD ∧
      s' = periodCounterPhase (now - s.lastWorkMillis) (longPwmPhase (now - s.lastWorkMillis) s).1 ∧
      evs = (longPwmPhase (now - s.lastWorkMillis) s).2) ∨
    (¬ now - s.lastWorkMillis < TEMP_MEASURE_PERIOD ∧
      ∃ s4, s' = (commitPidOutput s4).1 ∧
        evs = (longPwmPhase (now - s.lastWorkMillis) s).2 ++ (commitPidOutput s4).2 ∧
        0 ≤ s4.pidOutput ∧ s4.pidOutput ≤ 100 ∧ FieldsEq s4 s) := by
  unfold doWork at h
  dsimp only at h
  split_ifs at h with hel
  · left
    injection h with h'
    exact ⟨hel, congrArg Prod.fst h'.symm, congrArg Prod.snd h'.symm⟩
  · right
    refine ⟨hel, ?_⟩
    rcases hh : heavyPhase now (periodCounterPhase (now - s.lastWorkMillis)
        (longPwmPhase (now - s.lastWorkMillis) s).1) with _ | r0
    · rw [hh] at h
      exact absurd h (by simp)
    · rw [hh] at h
      dsimp only at h
      injection h with h'
      injection h' with ha hb
      have hproj := periodCounterPhase_proj (now - s.lastWorkMillis)
        (longPwmPhase (now - s.lastWorkMillis) s).1
      have hproj2 := longPwmPhase_proj (now - s.lastWorkMillis) s
      obtain ⟨s4, hr0, hb0, hb1, hfe⟩ := heavyPhase_facts now _ r0 hh
        (by rw [hproj.1, hproj2.1]; exact hpo0)
        (by rw [hproj.1, hproj2.1]; exact hpo1)
      refine ⟨s4, ?_, ?_, hb0, hb1,
        fieldsEq_trans hfe (fieldsEq_trans hproj.2 hproj2.2)⟩
      · rw [← ha, hr0]
      · rw [← hb, hr0]

/-- One `doWork` invocation preserves the controller invariant. -/
theorem doWork_inv (now : ℚ) (s s' : PitState) (evs : List PitEvent)
    (h : doWork now s = some (s', evs)) (hInv : PitInv s) : PitInv s' := by
  obtain ⟨i1, i2, i3, i4, i5, i6, i7, i8, i9, i10⟩ := hInv
  rcases doWork_facts now s s' evs h i1 i2 with ⟨_, hs', _⟩ | ⟨_, s4, hs', _, hb0, hb1, hfe⟩
  · subst hs'
    have hp := periodCounterPhase_proj (now - s.lastWorkMillis)
      (longPwmPhase (now - s.lastWorkMillis) s).1
    have hq := longPwmPhase_proj (now - s.lastWorkMillis) s
    obtain ⟨hp1, hpf1, hpf2, hpf3, hpf4, _, _⟩ := hp
    obtain ⟨hq1, hqf1, hqf2, hqf3, hqf4, _, _⟩ := hq
    exact ⟨by rw [hp1, hq1]; exact i1, by rw [hp1, hq1]; exact i2,
      by rw [hpf1, hqf1]; exact i3, by rw [hpf1, hqf1]; exact i4,
      by rw [hpf2, hqf2]; exact i5, by rw [hpf2, hqf2]; exact i6,
      by rw [hpf3, hqf3]; exact i7, by rw [hpf3, hqf3]; exact i8,
      by rw [hpf4, hqf4]; exact i9, by rw [hpf4, hqf4]; exact i10⟩
  · subst hs'
    obtain ⟨hc1, hcf1, hcf2, hcf3, hcf4, _, _⟩ := commitPidOutput_proj s4
    obtain ⟨hff1, hff2, hff3, hff4, _, _⟩ := hfe
    exact ⟨by rw [hc1]; exact hb0, by rw [hc1]; exact hb1,
      by rw [hcf1, hff1]; exact i3, by rw [hcf1, hff1]; exact i4,
      by rw [hcf2, hff2]; exact i5, by rw [hcf2, hff2]; exact i6,
      by rw [hcf3, hff3]; exact i7, by rw [hcf3, hff3]; exact i8,
      by rw [hcf4, hff4]; exact i9, by rw [hcf4, hff4]; exact i10⟩

/-- Every reachable controller state satisfies the invariant: the committed
output is in `[0,100]`, the fan active floor in `[0,99]` and the fan speed
limits in `[0,100]`. -/
theorem reachable_inv (s : PitState) (h : Reachable s) : PitInv s := by
  induction h with
  | init => exact ⟨by norm_num [initState], by norm_num [initState], by norm_num [initState],
      by norm_num [initState], by norm_num [initState], by norm_num [initState],
      by norm_num [initState], by norm_num [initState], by norm_num [initState],
      by norm_num [initState]⟩
  | pid s p i d _ ih => exact ih
  | mode s m _ ih =>
    obtain ⟨_, _, i3, i4, i5, i6, i7, i8, i9, i10⟩ := ih
    exact ⟨by norm_num [setPidMode], by norm_num [setPidMode], i3, i4, i5, i6, i7, i8, i9, i10⟩
  | fanMax s v _ ih =>
    obtain ⟨i1, i2, i3, i4, i5, i6, _, _, i9, i10⟩ := ih
    have hc := constrain_mem v 0 100 (by norm_num)
    exact ⟨i1, i2, i3, i4, i5, i6, hc.1, hc.2, i9, i10⟩
  | fanMaxStartup s v _ ih =>
    obtain ⟨i1, i2, i3, i4, i5, i6, i7, i8, _, _⟩ := ih
    have hc := constrain_mem v 0 100 (by norm_num)
    exact ⟨i1, i2, i3, i4, i5, i6, i7, i8, hc.1, hc.2⟩
  | fanFloor s v _ ih =>
    obtain ⟨i1, i2, _, _, i5, i6, i7, i8, i9, i10⟩ := ih
    have hc := constrain_mem v 0 99 (by norm_num)
    exact ⟨i1, i2, hc.1, hc.2, i5, i6, i7, i8, i9, i10⟩
  | fanMin s v _ ih =>
    obtain ⟨i1, i2, i3, i4, _, _, i7, i8, i9, i10⟩ := ih
    have hc := constrain_mem v 0 100 (by norm_num)
    exact ⟨i1, i2, i3, i4, hc.1, hc.2, i7, i8, i9, i10⟩
  | servoMin s v _ ih => exact ih
  | servoMax s v _ ih => exact ih
  | lidOffset s v _ ih => exact ih
  | lidDuration s v _ ih => exact ih
  | point s v _ ih =>
    obtain ⟨_, _, i3, i4, i5, i6, i7, i8, i9, i10⟩ := ih
    exact ⟨by norm_num [setSetPoint, setPidMode], by norm_num [setSetPoint, setPidMode],
      i3, i4, i5, i6, i7, i8, i9, i10⟩
  | manual s v _ ih =>
    obtain ⟨_, _, i3, i4, i5, i6, i7, i8, i9, i10⟩ := ih
    have hc := constrain_mem v 0 100 (by norm_num)
    exact ⟨hc.1, hc.2, i3, i4, i5, i6, i7, i8, i9, i10⟩
  | probe s d _ ih =>
    obtain ⟨i1, i2, i3, i4, i5, i6, i7, i8, i9, i10⟩ := ih
    obtain ⟨hp1, hpf1, hpf2, hpf3, hpf4, _, _⟩ := updateProbe_proj s d
    exact ⟨by rw [hp1]; exact i1, by rw [hp1]; exact i2,
      by rw [hpf1]; exact i3, by rw [hpf1]; exact i4,
      by rw [hpf2]; exact i5, by rw [hpf2]; exact i6,
      by rw [hpf3]; exact i7, by rw [hpf3]; exact i8,
      by rw [hpf4]; exact i9, by rw [hpf4]; exact i10⟩
  | rmProbe s a _ ih => exact ih
  | work s s' evs now _ hw ih => exact doWork_inv now s s' evs hw ih

/-- C7 (amended): on every tick from a reachable configuration, each emitted
status snapshot carries `pid_output` and `fan_pct` in `[0,100]`, and carries
`servo_pct` in `[0,100]` whenever `servo_min_pos ≠ servo_max_pos` (with equal
end-points the snapshot's `servo_pct` is the JS NaN); a heavy tick emits
exactly one status event and a sub-tick none. -/
theorem c7_status_bounds (s : PitState) (now : ℚ) (s' : PitState) (evs : List PitEvent)
    (hreach : Reachable s) (hw : doWork now s = some (s', evs)) :
    (∀ r, PitEvent.status r ∈ evs →
      (0 ≤ r.pidOutput ∧ r.pidOutput ≤ 100) ∧ (0 ≤ r.fanPct ∧ r.fanPct ≤ 100) ∧
      (s.servoMinPos ≠ s.servoMaxPos → ∃ w, r.servoPct = some w ∧ 0 ≤ w ∧ w ≤ 100)) ∧
    evs.countP isStatusEv =
      (if TEMP_MEASURE_PERIOD ≤ now - s.lastWorkMillis then 1 else 0) := by
  obtain ⟨i1, i2, i3, i4, i5, i6, i7, i8, i9, i10⟩ := reachable_inv s hreach
  rcases doWork_facts now s s' evs hw i1 i2 with ⟨hel, _, hevs⟩ |
    ⟨hel, s4, _, hevs, hb0, hb1, hfe⟩
  · subst hevs
    constructor
    · intro r hr
      rcases longPwmPhase_snd (now - s.lastWorkMillis) s with h0 | ⟨v, h0⟩ <;>
        rw [h0] at hr <;> simp at hr
    · rw [if_neg (not_le.mpr hel)]
      rcases longPwmPhase_snd (now - s.lastWorkMillis) s with h0 | ⟨v, h0⟩ <;>
        rw [h0] <;> simp [isStatusEv]
  · subst hevs
    obtain ⟨hff1, hff2, hff3, hff4, hff5, hff6⟩ := hfe
    have hbound := commitPidOutput_status_bound s4 hb0 hb1
      (by rw [hff1]; exact i3) (by rw [hff1]; exact i4)
      (by rw [hff2]; exact i5) (by rw [hff2]; exact i6)
      (by rw [hff3]; exact i7) (by rw [hff3]; exact i8)
      (by rw [hff4]; exact i9) (by rw [hff4]; exact i10)
    constructor
    · intro r hr
      rcases List.mem_append.mp hr with hr1 | hr2
      · rcases longPwmPhase_snd (now - s.lastWorkMillis) s with h0 | ⟨v, h0⟩ <;>
          rw [h0] at hr1 <;> simp at hr1
      · have hb := hbound r hr2
        refine ⟨hb.1, hb.2.1, fun hne => hb.2.2 ?_⟩
        rw [hff5, hff6]
        exact hne
    · rw [List.countP_append, if_pos (not_lt.mp hel)]
      have hpwm0 : ((longPwmPhase (now - s.lastWorkMillis) s).2).countP isStatusEv = 0 := by
        rcases longPwmPhase_snd (now - s.lastWorkMillis) s with h0 | ⟨v, h0⟩ <;>
          rw [h0] <;> simp [isStatusEv]
      have hc1 : ((commitPidOutput s4).2).countP isStatusEv = 1 := by
        obtain ⟨f, r0, hc⟩ := commit_trace_shape s4
        rcases hc with hc | ⟨w, hc⟩ <;> rw [hc] <;> simp [isStatusEv]
      rw [hpwm0, hc1]

/-- C7 witness: the amended theorem applied to a heavy tick of the
constructor state (which is reachable by definition). -/
theorem c7_status_bounds_witness :
    ∃ s' evs, doWork 2000 initState = some (s', evs) ∧
      ((∀ r, PitEvent.status r ∈ evs →
        (0 ≤ r.pidOutput ∧ r.pidOutput ≤ 100) ∧ (0 ≤ r.fanPct ∧ r.fanPct ≤ 100) ∧
        (initState.servoMinPos ≠ initState.servoMaxPos →
          ∃ w, r.servoPct = some w ∧ 0 ≤ w ∧ w ≤ 100)) ∧
      evs.countP isStatusEv =
        (if TEMP_MEASURE_PERIOD ≤ 2000 - initState.lastWorkMillis then 1 else 0)) := by
  rcases hw : doWork 2000 initState with _ | p
  · norm_num [doWork, longPwmPhase, periodCounterPhase, heavyPhase, tempProbeProcessPeriod,
      calcExpMovingAverage, calcPidOutput, pidIStep, finishPid, hasTemperature, getPidIMax,
      isPitTempReached, coerceNull, constrain, modeTransitions, lidOpenResumeCountdown,
      lidModeShouldActivate, resetLidOpenTimeout, commitPidOutput, commitFanOutput,
      commitServoOutput, emitStatusReport, fanCurrentMaxSpeed, mapPct, mapRange, initState,
      PIDMODE_NORMAL, PIDMODE_STARTUP, PIDMODE_AUTO_LAST, PIDMODE_STR, PID_PONMEER_LAMBDA,
      TEMP_MEASURE_PERIOD, TEMP_OUTADJUST_CNT, TEMP_LONG_PWM_CNT, TEMPPROBE_AVG_SMOOTH,
      LIDOPEN_MIN_AUTORESUME, SERVO_MIN_THRESH, SERVO_MAX_HOLDOFF, PID_OUTPUT_AVG_SMOOTH] at hw
    exact Option.noConfusion hw
  · obtain ⟨s', evs⟩ := p
    exact ⟨s', evs, rfl, c7_status_bounds initState 2000 s' evs Reachable.init hw⟩
